import Mathlib

/-!
Shallow embedding of the seat-inventory and booking-consistency core of the
TransBus bus-ticket reservation server (src/server.js, src/Backend/server.js,
src/models/Booking.js), together with theorems settling the specification
claims about it.

Conventions of the embedding:
* JavaScript strings are Lean `String`s; `trim`/`toLowerCase` are modelled by
  `jsTrim`/`jsToLowerCase` below (ASCII plus the Latin-1 letter block, which
  covers the city names appearing in the reference data).
* JavaScript `Map`s keyed by strings are association lists `List (String × α)`
  with `alGet`/`alSet` mirroring `Map.get`/`Map.set` (set replaces the first
  binding in place, otherwise appends, as iteration order of a JS Map does).
* A JS `Set` of seat-label strings is a duplicate-free `List String`;
  `Set.add` is `setAdd`.
* JS numbers that hold prices are modelled as `ℚ` (the literals in the data
  are exact decimals); `Math.round` is `jsRound`.  The metadata field
  `precio` is written with `finalPrice.toString()` and read back with
  `parseFloat`; that round-trip is the identity on the rational value, so the
  metadata carries the `ℚ` directly.
* A request-body value that may be a number or a string (the seat field) is a
  `JsVal`; `String(x)` is `jsString`, truthiness is `jsTruthy`.
* `async` calls to the external payment collaborator (Stripe) are modelled by
  passing the collaborator response in as an explicit argument, and wall-clock
  reads (`new Date().toISOString()`) by an explicit `now` argument.
-/

namespace TransBus

/-- Whitespace as trimmed by JavaScript `String.prototype.trim`
(ASCII whitespace, NBSP and the BOM cover every case arising here). -/
def isJsWhitespace (c : Char) : Bool :=
  c == ' ' || c == '\t' || c == '\n' || c == '\r' ||
  c.toNat == 11 || c.toNat == 12 || c.toNat == 160 || c.toNat == 65279

/-- JavaScript `s.trim()`: drop whitespace from both ends. -/
def jsTrim (s : String) : String :=
  String.mk (((s.data.dropWhile isJsWhitespace).reverse.dropWhile isJsWhitespace).reverse)

/-- JavaScript `String.prototype.toLowerCase` on one character, for the ASCII
range and the Latin-1 uppercase block (À..Þ except ×), which is the alphabet
of the reference data (for example É ↦ é). -/
def jsCharToLower (c : Char) : Char :=
  if 65 ≤ c.toNat && c.toNat ≤ 90 then Char.ofNat (c.toNat + 32)
  else if 192 ≤ c.toNat && c.toNat ≤ 222 && c.toNat != 215 then Char.ofNat (c.toNat + 32)
  else c

/-- JavaScript `s.toLowerCase()`. -/
def jsToLowerCase (s : String) : String :=
  String.mk (s.data.map jsCharToLower)

/-- JavaScript `Math.round` on an exact rational: round half towards +∞. -/
def jsRound (q : ℚ) : ℤ := ⌊q + 1/2⌋

/-- A request-body value that may arrive as a JSON string or number
(the `asiento` field is used both ways by the frontend). -/
inductive JsVal where
  | str (s : String)
  | num (n : ℕ)
deriving DecidableEq, Repr

/-- JavaScript `String(x)` for the two shapes of `JsVal`. -/
def jsString : JsVal → String
  | .str s => s
  | .num n => toString n

/-- JavaScript truthiness of a `JsVal` (empty string and 0 are falsy). -/
def jsTruthy : JsVal → Bool
  | .str s => s != ""
  | .num n => n != 0

/-- `Map.get`: value of the first binding of the key, if any. -/
def alGet {α : Type} : List (String × α) → String → Option α
  | [], _ => none
  | (k', v) :: rest, k => if k' == k then some v else alGet rest k

/-- `Map.set`: replace the first binding of the key in place, else append. -/
def alSet {α : Type} : List (String × α) → String → α → List (String × α)
  | [], k, v => [(k, v)]
  | (k', v') :: rest, k, v =>
    if k' == k then (k, v) :: rest else (k', v') :: alSet rest k v

/-- Number of bindings of a key in an association list. -/
def countKey {α : Type} (m : List (String × α)) (k : String) : ℕ :=
  (m.filter (fun p => p.1 == k)).length

/-- `Set.add` on a set-as-list: append the element unless already present. -/
def setAdd (s : List String) (x : String) : List String :=
  if s.contains x then s else s ++ [x]

/-- The seat ledger `bookedSeatsByRoute`: trip-instance key ↦ set of seat
labels (src/server.js line 35 / src/Backend/server.js line 23). -/
abbrev SeatMap := List (String × List String)

/-- src/server.js lines 46-48 (identical in src/Backend/server.js lines
26-28): `getRouteKey` builds the trip-instance key
`${origen.trim().toLowerCase()}|${destino.trim().toLowerCase()}|${fecha}|${horario}`. -/
def getRouteKey (origen destino fecha horario : String) : String :=
  jsToLowerCase (jsTrim origen) ++ "|" ++ jsToLowerCase (jsTrim destino) ++ "|"
    ++ fecha ++ "|" ++ horario

/-- src/server.js lines 50-54: `isSeatBooked` — look the key up in the ledger
and test membership of `String(asiento)`. -/
def isSeatBooked (m : SeatMap) (origen destino fecha horario : String)
    (asiento : JsVal) : Bool :=
  match alGet m (getRouteKey origen destino fecha horario) with
  | some s => s.contains (jsString asiento)
  | none => false

/-- Insert a seat label under a key: create the entry if missing, otherwise
add to the existing set (the `has`/`set(new Set())`/`get().add` sequence). -/
def mapAddSeat : SeatMap → String → String → SeatMap
  | [], k, v => [(k, [v])]
  | (k', s) :: rest, k, v =>
    if k' == k then (k', setAdd s v) :: rest else (k', s) :: mapAddSeat rest k v

/-- src/server.js lines 56-65: `bookSeat` adds `String(asiento)` to the set
for the trip-instance key (the trailing `saveBookings` disk write is pure
persistence of this same map and has no further in-memory effect). -/
def bookSeat (m : SeatMap) (origen destino fecha horario : String)
    (asiento : JsVal) : SeatMap :=
  mapAddSeat m (getRouteKey origen destino fecha horario) (jsString asiento)

/-- One departure of a route (fields of the schedule objects in the
`availableRoutes` reference data). -/
structure Schedule where
  id : ℕ
  time : String
  arrival : String
  type : String
  price : ℚ
deriving DecidableEq, Repr

/-- One route of the `availableRoutes` reference data. -/
structure RouteData where
  duration : String
  distance : String
  basePrice : ℚ
  schedules : List Schedule
deriving DecidableEq, Repr

/-- `availableRoutes`: route key `origen-destino` ↦ route data. -/
abbrev RoutesMap := List (String × RouteData)

/-- Metadata attached to a checkout session (src/server.js lines 160-173). -/
structure SessionMetadata where
  nombre : String
  tipoDocumento : String
  numeroDocumento : String
  origen : String
  destino : String
  asiento : String
  horario : String
  fecha : String
  precio : ℚ
  email : String
  telefono : String
  paymentMethod : String
deriving DecidableEq, Repr

/-- A stored ticket record (src/server.js lines 238-251). -/
structure Ticket where
  sessionId : String
  nombre : String
  origen : String
  destino : String
  asiento : String
  horario : String
  fecha : String
  precio : ℚ
  amountPaid : ℚ
  currency : String
  createdAt : String
  paymentStatus : String
deriving DecidableEq, Repr

/-- The mutable server state of src/server.js: the route reference data, the
seat ledger, and the ticket database (lines 34-36). -/
structure ServerState where
  availableRoutes : RoutesMap
  bookedSeatsByRoute : SeatMap
  ticketDatabase : List (String × Ticket)
deriving DecidableEq, Repr

/-- The body of a POST /api/create-checkout-session request
(src/server.js line 98); absent string fields arrive as "". -/
structure CheckoutRequest where
  nombre : String
  tipoDocumento : String
  numeroDocumento : String
  origen : String
  destino : String
  asiento : JsVal
  horario : String
  fecha : String
  precio : ℚ
  email : String
  telefono : String
  paymentMethod : String
deriving DecidableEq, Repr

/-- Payment-method options added for OXXO or SPEI
(src/server.js lines 178-196). -/
inductive PmOptions where
  | oxxoExpiresAfterDays (n : ℕ)
  | customerBalanceMxBankTransfer
deriving DecidableEq, Repr

/-- The session-creation request sent to the external payment collaborator
(`sessionConfig`, src/server.js lines 142-196). -/
structure SessionConfig where
  paymentMethodTypes : List String
  currency : String
  productName : String
  description : String
  unitAmount : ℤ
  quantity : ℕ
  metadata : SessionMetadata
  customerEmail : Option String
  paymentMethodOptions : Option PmOptions
deriving DecidableEq, Repr

/-- Outcome of the create-checkout-session handler: an HTTP error response,
or delegation to the payment collaborator with a session configuration. -/
inductive CheckoutResponse where
  | error (status : ℕ) (msg : String)
  | session (config : SessionConfig)
deriving DecidableEq, Repr

/-- The required-field guard of the create-checkout-session handler
(src/server.js line 100): `!nombre || !origen || !destino || !asiento ||
!horario || !fecha || !numeroDocumento`, stated positively. -/
def requiredPresent (req : CheckoutRequest) : Bool :=
  req.nombre != "" && req.origen != "" && req.destino != ""
    && jsTruthy req.asiento && req.horario != "" && req.fecha != ""
    && req.numeroDocumento != ""

/-- src/server.js lines 97-205: the POST /api/create-checkout-session
handler, up to the delegation to `stripe.checkout.sessions.create`
(`.session cfg` stands for that call being issued with `cfg`).  The handler
threads the server state through every branch; no branch mutates it. -/
def createCheckoutSession (st : ServerState) (req : CheckoutRequest) :
    CheckoutResponse × ServerState :=
  if !requiredPresent req then
    (.error 400 "Faltan datos requeridos (nombre, documento, origen, destino, asiento, horario, fecha)", st)
  else if isSeatBooked st.bookedSeatsByRoute req.origen req.destino req.fecha
      req.horario req.asiento then
    (.error 409 "El asiento seleccionado no está disponible", st)
  else
    match alGet st.availableRoutes (req.origen ++ "-" ++ req.destino) with
    | none => (.error 400 "Ruta no válida", st)
    | some routeData =>
      let selectedSchedule := routeData.schedules.find? (fun s => s.time == req.horario)
      let finalPrice :=
        match selectedSchedule with
        | some s => s.price
        | none => routeData.basePrice
      let paymentMethodTypes :=
        match req.paymentMethod with
        | "oxxo" => ["oxxo"]
        | "spei" => ["customer_balance"]
        | "cash" => ["oxxo"]
        | _ => ["card"]
      let cfg : SessionConfig :=
        { paymentMethodTypes := paymentMethodTypes
          currency := "mxn"
          productName := "TransBus: " ++ req.origen ++ " → " ++ req.destino
          description := "Viaje del " ++ req.fecha ++ " a las " ++ req.horario
            ++ " - Asiento " ++ jsString req.asiento ++ "\nPasajero: " ++ req.nombre
            ++ "\nDocumento: " ++ (if req.tipoDocumento != "" then req.tipoDocumento else "N/A")
            ++ " " ++ req.numeroDocumento
          unitAmount := jsRound (finalPrice * 100)
          quantity := 1
          metadata :=
            { nombre := req.nombre
              tipoDocumento := if req.tipoDocumento != "" then req.tipoDocumento else "N/A"
              numeroDocumento := req.numeroDocumento
              origen := req.origen
              destino := req.destino
              asiento := jsString req.asiento
              horario := req.horario
              fecha := req.fecha
              precio := finalPrice
              email := if req.email != "" then req.email else "N/A"
              telefono := if req.telefono != "" then req.telefono else "N/A"
              paymentMethod := if req.paymentMethod != "" then req.paymentMethod else "card" }
          customerEmail := if req.email != "" then some req.email else none
          paymentMethodOptions :=
            if req.paymentMethod == "oxxo" || req.paymentMethod == "cash" then
              some (.oxxoExpiresAfterDays 3)
            else if req.paymentMethod == "spei" then
              some .customerBalanceMxBankTransfer
            else none }
      (.session cfg, st)

/-- The checkout session returned by the payment collaborator on
`stripe.checkout.sessions.retrieve` (the fields the handler reads). -/
structure StripeSession where
  id : String
  paymentStatus : String
  metadata : SessionMetadata
  amountTotal : ℤ
  currency : String
deriving DecidableEq, Repr

/-- The ticket summary returned in the paid response
(src/server.js line 263). -/
structure Boleto where
  nombre : String
  origen : String
  destino : String
  asiento : String
  horario : String
  fecha : String
deriving DecidableEq, Repr

/-- Outcome of the GET /api/checkout/session handler. -/
inductive ConfirmResponse where
  | error (status : ℕ) (msg : String)
  | paid (sessionId : String) (amountTotal : ℤ) (currency : String) (boleto : Boleto)
deriving DecidableEq, Repr

/-- The metadata-completeness guard of the confirmation handler
(src/server.js line 228): `!nombre || !origen || !destino || !asiento ||
!horario || !fecha`, stated positively. -/
def metaComplete (m : SessionMetadata) : Bool :=
  m.nombre != "" && m.origen != "" && m.destino != "" && m.asiento != ""
    && m.horario != "" && m.fecha != ""

/-- src/server.js lines 208-270 (identically src/Backend/server.js lines
163-222 for this logic): the GET /api/checkout/session confirmation handler.
`lookup` is the result of `stripe.checkout.sessions.retrieve(session_id)`
(the external collaborator), `now` the wall clock for `createdAt`.  The
trailing `saveTickets` disk write persists the same map and has no further
in-memory effect. -/
def checkoutSessionHandler (st : ServerState) (sessionId : String)
    (lookup : Option StripeSession) (now : String) :
    ConfirmResponse × ServerState :=
  if sessionId == "" then (.error 400 "Falta session_id", st)
  else
    match lookup with
    | none => (.error 404 "Sesión no encontrada", st)
    | some session =>
      if session.paymentStatus != "paid" then (.error 402 "Pago no confirmado", st)
      else
        let m := session.metadata
        if !metaComplete m then
          (.error 500 "Datos de sesión incompletos", st)
        else
          let booked :=
            if isSeatBooked st.bookedSeatsByRoute m.origen m.destino m.fecha
                m.horario (.str m.asiento) then
              st.bookedSeatsByRoute
            else
              bookSeat st.bookedSeatsByRoute m.origen m.destino m.fecha m.horario
                (.str m.asiento)
          let ticketData : Ticket :=
            { sessionId := session.id
              nombre := m.nombre
              origen := m.origen
              destino := m.destino
              asiento := m.asiento
              horario := m.horario
              fecha := m.fecha
              precio := m.precio
              amountPaid := (session.amountTotal : ℚ) / 100
              currency := session.currency
              createdAt := now
              paymentStatus := "paid" }
          (.paid session.id session.amountTotal session.currency
            ⟨m.nombre, m.origen, m.destino, m.asiento, m.horario, m.fecha⟩,
           { st with
              bookedSeatsByRoute := booked
              ticketDatabase := alSet st.ticketDatabase session.id ticketData })

/-- The amount delegated to the payment collaborator by a checkout response,
when one is delegated at all. -/
def checkoutAmount : CheckoutResponse → Option ℤ
  | .session cfg => some cfg.unitAmount
  | .error _ _ => none

/-- The HTTP status of a checkout response (delegation yields the 200 of the
eventual redirect-URL reply). -/
def checkoutStatus : CheckoutResponse → ℕ
  | .session _ => 200
  | .error s _ => s

/-- Whether a confirm response is the paid outcome. -/
def isPaidResponse : ConfirmResponse → Bool
  | .paid _ _ _ _ => true
  | .error _ _ => false

/-- State reached by one confirmation attempt (the handler's state
component, driven by a retrieved paid session). -/
def confirmStep (st : ServerState) (s : StripeSession) (now : String) : ServerState :=
  (checkoutSessionHandler st s.id (some s) now).2

/-- Run a sequence of confirmation attempts and count how many of them
mutate the seat ledger. -/
def ledgerMutations : ServerState → List StripeSession → String → ℕ
  | _, [], _ => 0
  | st, s :: rest, now =>
    (if (confirmStep st s now).bookedSeatsByRoute = st.bookedSeatsByRoute then 0 else 1)
      + ledgerMutations (confirmStep st s now) rest now

/-- A paid session whose metadata names the given trip and seat and passes
the completeness check of the confirmation handler. -/
def paidFor (s : StripeSession) (origen destino fecha horario asiento : String) : Prop :=
  s.paymentStatus = "paid" ∧ s.metadata.origen = origen ∧ s.metadata.destino = destino
    ∧ s.metadata.fecha = fecha ∧ s.metadata.horario = horario
    ∧ s.metadata.asiento = asiento
    ∧ s.metadata.nombre ≠ "" ∧ origen ≠ "" ∧ destino ≠ "" ∧ asiento ≠ ""
    ∧ horario ≠ "" ∧ fecha ≠ ""

instance (s : StripeSession) (o d f h a : String) : Decidable (paidFor s o d f h a) := by
  unfold paidFor; infer_instance

/-- The Ciudad de México-Guadalajara entry of the hard-coded
`availableRoutes` reference data (src/Backend/server.js lines 46-56). -/
def cdmxGdlRoute : RouteData :=
  { duration := "7h 30m"
    distance := "550 km"
    basePrice := 25
    schedules :=
      [⟨1, "06:00", "13:30", "Ejecutivo", 25⟩,
       ⟨2, "10:00", "17:30", "Primera Clase", 30⟩,
       ⟨3, "14:00", "21:30", "Ejecutivo", 25⟩,
       ⟨4, "20:00", "03:30+1", "Primera Clase", 30⟩] }

/-- The hard-coded `availableRoutes` reference data of src/Backend/server.js
lines 45-77. -/
def backendAvailableRoutes : RoutesMap :=
  [("Ciudad de México-Guadalajara",
    cdmxGdlRoute),
   ("Ciudad de México-Monterrey",
    { duration := "9h 15m", distance := "920 km", basePrice := 35,
      schedules :=
        [⟨5, "08:00", "17:15", "Ejecutivo", 35⟩,
         ⟨6, "16:00", "01:15+1", "Primera Clase", 40⟩,
         ⟨7, "22:00", "07:15+1", "Ejecutivo", 35⟩] }),
   ("Guadalajara-Ciudad de México",
    { duration := "7h 30m", distance := "550 km", basePrice := 25,
      schedules :=
        [⟨8, "07:00", "14:30", "Primera Clase", 30⟩,
         ⟨9, "11:00", "18:30", "Ejecutivo", 25⟩,
         ⟨10, "19:00", "02:30+1", "Primera Clase", 30⟩] })]

/-! ### The BookingModel of src/models/Booking.js -/

/-- A stored reserva (the object built by `BookingModel.createBooking` plus
the fields later updates may add). -/
structure Booking where
  id : ℕ
  referencia : String
  nombre : String
  email : String
  telefono : String
  origen : String
  destino : String
  routeId : ℕ
  asiento : ℕ
  horario : String
  fecha : String
  precio : ℚ
  estado : String
  fechaCreacion : String
  fechaActualizacion : String
  version : ℕ
  motivoCancelacion : Option String
  fechaCancelacion : Option String
deriving DecidableEq, Repr

/-- The `bookingData` argument of `createBooking` (estado arrives as "" when
absent, picking up the default). -/
structure BookingData where
  nombre : String
  email : String
  telefono : String
  origen : String
  destino : String
  routeId : ℕ
  asiento : ℕ
  horario : String
  fecha : String
  precio : ℚ
  estado : String
deriving DecidableEq, Repr

/-- The static in-memory store of `BookingModel`:
`bookings` (referencia ↦ booking) and `nextId`. -/
structure BookingStore where
  bookings : List (String × Booking)
  nextId : ℕ
deriving DecidableEq, Repr

/-- src/models/Booking.js lines 42-59: `createBooking`.  `generateReference`
draws on `Date.now`/`Math.random`, and the creation timestamp on the wall
clock, so both are passed in as arguments `referencia` and `now`. -/
def createBooking (s : BookingStore) (data : BookingData)
    (referencia now : String) : Booking × BookingStore :=
  let b : Booking :=
    { id := s.nextId
      referencia := referencia
      nombre := data.nombre
      email := data.email
      telefono := data.telefono
      origen := data.origen
      destino := data.destino
      routeId := data.routeId
      asiento := data.asiento
      horario := data.horario
      fecha := data.fecha
      precio := data.precio
      estado := if data.estado != "" then data.estado else "pendiente"
      fechaCreacion := now
      fechaActualizacion := now
      version := 1
      motivoCancelacion := none
      fechaCancelacion := none }
  (b, { bookings := alSet s.bookings referencia b, nextId := s.nextId + 1 })

/-- src/models/Booking.js lines 90-107: `updateBooking` merges `updateData`
(here an explicit field update `upd`, modelling the object spread) over the
stored booking and stamps `fechaActualizacion` and `version`. -/
def updateBooking (s : BookingStore) (referencia : String)
    (upd : Booking → Booking) (now : String) : Option Booking × BookingStore :=
  match alGet s.bookings referencia with
  | none => (none, s)
  | some b =>
    let nb := { upd b with fechaActualizacion := now, version := b.version + 1 }
    (some nb, { s with bookings := alSet s.bookings referencia nb })

/-- src/models/Booking.js lines 281-293: `cancelBooking` — null (and no state
change) when the booking is missing or already cancelled, otherwise an
update to estado cancelada. -/
def cancelBooking (s : BookingStore) (referencia motivo now : String) :
    Option Booking × BookingStore :=
  match alGet s.bookings referencia with
  | none => (none, s)
  | some b =>
    if b.estado == "cancelada" then (none, s)
    else
      updateBooking s referencia
        (fun bk => { bk with
          estado := "cancelada"
          motivoCancelacion := some motivo
          fechaCancelacion := some now }) now

/-- src/models/Booking.js lines 125-135: `isSeatAvailable` — no stored
booking for the same route, seat and date is in a non-cancelled estado. -/
def isSeatAvailable (s : BookingStore) (routeId asiento : ℕ) (fecha : String) : Bool :=
  s.bookings.all fun p =>
    !(p.2.routeId == routeId && p.2.asiento == asiento && p.2.fecha == fecha
      && p.2.estado != "cancelada")

/-- The ticket record stored by a successful confirmation of session `s` at
time `now` (the `ticketData` object of src/server.js lines 238-251). -/
def confirmTicket (s : StripeSession) (now : String) : Ticket :=
  { sessionId := s.id
    nombre := s.metadata.nombre
    origen := s.metadata.origen
    destino := s.metadata.destino
    asiento := s.metadata.asiento
    horario := s.metadata.horario
    fecha := s.metadata.fecha
    precio := s.metadata.precio
    amountPaid := (s.amountTotal : ℚ) / 100
    currency := s.currency
    createdAt := now
    paymentStatus := "paid" }

/-- Responses observed by a sequence of confirmation attempts, each attempt
seeing the state left by the previous one. -/
def confirmResponses : ServerState → List StripeSession → String → List ConfirmResponse
  | _, [], _ => []
  | st, s :: rest, now =>
    (checkoutSessionHandler st s.id (some s) now).1
      :: confirmResponses (confirmStep st s now) rest now

/-- Two strings that differ only by letter case and leading/trailing
whitespace: they agree after trimming and lowercasing. -/
def caseWsVariant (s1 s2 : String) : Prop :=
  jsToLowerCase (jsTrim s1) = jsToLowerCase (jsTrim s2)

instance (s1 s2 : String) : Decidable (caseWsVariant s1 s2) := by
  unfold caseWsVariant; infer_instance

/-! ### Concrete scenario data used by counterexamples and witnesses -/

/-- A paid checkout session for seat 12 of the CDMX→GDL trip instance of
2024-01-15 at 10:00. -/
def seatTwelveSession : StripeSession :=
  { id := "cs_1"
    paymentStatus := "paid"
    metadata :=
      { nombre := "Ana"
        tipoDocumento := "INE"
        numeroDocumento := "123"
        origen := "CDMX"
        destino := "GDL"
        asiento := "12"
        horario := "10:00"
        fecha := "2024-01-15"
        precio := 25
        email := "N/A"
        telefono := "N/A"
        paymentMethod := "card" }
    amountTotal := 2500
    currency := "mxn" }

/-- A server state in which seat 12 of that trip instance is already
occupied (claimed by another booking). -/
def seatTwelveTakenState : ServerState :=
  { availableRoutes := []
    bookedSeatsByRoute := bookSeat [] "CDMX" "GDL" "2024-01-15" "10:00" (.str "12")
    ticketDatabase := [] }

/-- A second paid session competing for the same seat 12. -/
def rivalSession : StripeSession :=
  { seatTwelveSession with
      id := "cs_2"
      metadata := { seatTwelveSession.metadata with nombre := "Beto" } }

/-- A checkout request for the Ciudad de México → Guadalajara route at a
departure time (23:59) that no schedule of the route offers. -/
def noScheduleRequest : CheckoutRequest :=
  { nombre := "Ana"
    tipoDocumento := "INE"
    numeroDocumento := "123"
    origen := "Ciudad de México"
    destino := "Guadalajara"
    asiento := .num 5
    horario := "23:59"
    fecha := "2024-01-15"
    precio := 1
    email := ""
    telefono := ""
    paymentMethod := "card" }

/-- The same request at the listed 10:00 departure (price 30, not the
basePrice 25, and not the client-asserted precio). -/
def listedScheduleRequest : CheckoutRequest :=
  { noScheduleRequest with horario := "10:00" }

/-- Fresh server state holding the reference routes, an empty ledger and an
empty ticket database. -/
def freshRoutesState : ServerState :=
  { availableRoutes := backendAvailableRoutes
    bookedSeatsByRoute := []
    ticketDatabase := [] }

/-- A checkout request for exactly the occupied seat 12 of
`seatTwelveTakenState`. -/
def seatTwelveRequest : CheckoutRequest :=
  { nombre := "Carla"
    tipoDocumento := "INE"
    numeroDocumento := "456"
    origen := "CDMX"
    destino := "GDL"
    asiento := .str "12"
    horario := "10:00"
    fecha := "2024-01-15"
    precio := 25
    email := ""
    telefono := ""
    paymentMethod := "card" }

/-- Booking data for seat 7 of route 1 on 2024-02-01 (BookingModel
scenario). -/
def seatSevenData : BookingData :=
  { nombre := "Ana"
    email := "ana@mail.mx"
    telefono := "555"
    origen := "CDMX"
    destino := "GDL"
    routeId := 1
    asiento := 7
    horario := "10:00"
    fecha := "2024-02-01"
    precio := 25
    estado := "" }

/-! ### Helper lemmas -/

theorem alGet_alSet_self {α : Type} (m : List (String × α)) (k : String) (v : α) :
    alGet (alSet m k v) k = some v := by
  induction m with
  | nil => simp [alSet, alGet]
  | cons p rest ih =>
    by_cases h : p.1 == k
    · simp [alSet, alGet, h]
    · simpa [alSet, alGet, h] using ih

theorem alSet_of_none {α : Type} (m : List (String × α)) (k : String) (v : α)
    (h : alGet m k = none) : alSet m k v = m ++ [(k, v)] := by
  induction m with
  | nil => simp [alSet]
  | cons p rest ih =>
    by_cases hk : p.1 == k
    · simp [alGet, hk] at h
    · simp [alGet, hk] at h
      simp [alSet, hk, ih h]

theorem alGet_append_of_none {α : Type} (m : List (String × α)) (k : String)
    (v : α) (h : alGet m k = none) : alGet (m ++ [(k, v)]) k = some v := by
  induction m with
  | nil => simp [alGet]
  | cons p rest ih =>
    by_cases hk : p.1 == k
    · simp [alGet, hk] at h
    · simp [alGet, hk] at h ⊢
      exact ih h

theorem alSet_append_of_none {α : Type} (m : List (String × α)) (k : String)
    (v w : α) (h : alGet m k = none) :
    alSet (m ++ [(k, v)]) k w = m ++ [(k, w)] := by
  induction m with
  | nil => simp [alSet]
  | cons p rest ih =>
    by_cases hk : p.1 == k
    · simp [alGet, hk] at h
    · simp [alGet, hk] at h
      simp [alSet, hk, ih h]

theorem countKey_alSet {α : Type} (m : List (String × α)) (k : String) (v : α) :
    countKey (alSet m k v) k = max (countKey m k) 1 := by
  induction m with
  | nil => simp [alSet, countKey]
  | cons p rest ih =>
    by_cases h : p.1 == k
    · simp only [alSet, h, if_true, countKey, List.filter_cons, beq_self_eq_true,
        if_true, List.length_cons]
      have : (List.filter (fun p => p.1 == k) rest).length + 1
          = countKey rest k + 1 := rfl
      omega
    · simp only [alSet, h, Bool.false_eq_true, if_false, countKey,
        List.filter_cons, h]
      exact ih

theorem setAdd_contains (s : List String) (x : String) :
    (setAdd s x).contains x = true := by
  simp only [setAdd]
  by_cases h : s.contains x
  · rw [if_pos h]; exact h
  · rw [if_neg h]; simp

theorem alGet_mapAddSeat_self (m : SeatMap) (k v : String) :
    ∃ s, alGet (mapAddSeat m k v) k = some s ∧ s.contains v = true := by
  induction m with
  | nil => exact ⟨[v], by simp [mapAddSeat, alGet], by simp⟩
  | cons p rest ih =>
    by_cases h : p.1 == k
    · exact ⟨setAdd p.2 v, by simp [mapAddSeat, alGet, h], setAdd_contains _ _⟩
    · obtain ⟨s, hs, hc⟩ := ih
      exact ⟨s, by simpa [mapAddSeat, alGet, h] using hs, hc⟩

theorem alGet_mapAddSeat_ne (m : SeatMap) (k k2 v : String) (h : k ≠ k2) :
    alGet (mapAddSeat m k v) k2 = alGet m k2 := by
  induction m with
  | nil => simp [mapAddSeat, alGet, h]
  | cons p rest ih =>
    by_cases hp : p.1 == k
    · have : p.1 = k := by simpa using hp
      simp [mapAddSeat, alGet, hp, this, h]
    · by_cases hp2 : p.1 == k2
      · simp [mapAddSeat, alGet, hp, hp2]
      · simpa [mapAddSeat, alGet, hp, hp2] using ih

/-- After `bookSeat`, the seat is booked, for any seat value with the same
string form. -/
theorem isSeatBooked_bookSeat (m : SeatMap) (o d f h : String) (v w : JsVal)
    (hw : jsString v = jsString w) :
    isSeatBooked (bookSeat m o d f h v) o d f h w = true := by
  obtain ⟨s, hs, hc⟩ := alGet_mapAddSeat_self m (getRouteKey o d f h) (jsString v)
  unfold isSeatBooked bookSeat
  rw [hs, ← hw]
  exact hc

/-- Keys built from distinct `fecha` components are distinct (for equal
normalized cities and equal `horario`). -/
theorem getRouteKey_fecha_injective (o d f f' h : String) (hf : f ≠ f') :
    getRouteKey o d f h ≠ getRouteKey o d f' h := by
  intro heq
  have hdata := congrArg String.data heq
  simp only [getRouteKey, String.data_append, ← List.append_assoc] at hdata
  exact hf (String.ext (List.append_cancel_left
    (List.append_cancel_right (List.append_cancel_right hdata))))

/-- The create-checkout-session handler leaves the server state untouched on
every control path. -/
theorem createCheckoutSession_state_eq (st : ServerState) (req : CheckoutRequest) :
    (createCheckoutSession st req).2 = st := by
  unfold createCheckoutSession
  repeat' split
  all_goals rfl

/-- On the delegation path, the amount handed to the payment collaborator is
the rounded authoritative price: the matching schedule's price, or the
route's basePrice when no schedule matches. -/
theorem createCheckoutSession_amount (st : ServerState) (req : CheckoutRequest)
    (rd : RouteData) (hreq : requiredPresent req = true)
    (hfree : isSeatBooked st.bookedSeatsByRoute req.origen req.destino req.fecha
      req.horario req.asiento = false)
    (hroute : alGet st.availableRoutes (req.origen ++ "-" ++ req.destino) = some rd) :
    checkoutStatus (createCheckoutSession st req).1 = 200
    ∧ checkoutAmount (createCheckoutSession st req).1
      = some (jsRound ((match rd.schedules.find? (fun s => s.time == req.horario) with
          | some s => s.price
          | none => rd.basePrice) * 100)) := by
  unfold createCheckoutSession
  simp only [hreq, hfree, hroute, Bool.not_true, Bool.false_eq_true, if_false]
  exact ⟨rfl, rfl⟩

/-- Path equation for the confirmation handler when the session exists, is
paid, and carries complete metadata: the response is paid, the seat is
claimed only if currently free, and the ticket is stored under the session
id. -/
theorem checkoutSessionHandler_paid (st : ServerState) (sid : String)
    (s : StripeSession) (now : String) (hsid : sid ≠ "")
    (hpaid : s.paymentStatus = "paid") (hmeta : metaComplete s.metadata = true) :
    checkoutSessionHandler st sid (some s) now =
      (.paid s.id s.amountTotal s.currency
        ⟨s.metadata.nombre, s.metadata.origen, s.metadata.destino,
         s.metadata.asiento, s.metadata.horario, s.metadata.fecha⟩,
       { st with
          bookedSeatsByRoute :=
            if isSeatBooked st.bookedSeatsByRoute s.metadata.origen s.metadata.destino
                s.metadata.fecha s.metadata.horario (.str s.metadata.asiento) then
              st.bookedSeatsByRoute
            else
              bookSeat st.bookedSeatsByRoute s.metadata.origen s.metadata.destino
                s.metadata.fecha s.metadata.horario (.str s.metadata.asiento)
          ticketDatabase := alSet st.ticketDatabase s.id (confirmTicket s now) }) := by
  unfold checkoutSessionHandler confirmTicket
  simp only [beq_iff_eq, hsid, if_false, hpaid, bne_self_eq_false, Bool.false_eq_true,
    hmeta, Bool.not_true, if_false]

/-- A session satisfying `paidFor` passes the metadata-completeness guard. -/
theorem paidFor_metaComplete (s : StripeSession) (o d f h a : String)
    (hp : paidFor s o d f h a) : metaComplete s.metadata = true := by
  obtain ⟨_, ho, hd, hf, hh, ha, hn, ho2, hd2, ha2, hh2, hf2⟩ := hp
  simp [metaComplete, ho, hd, hf, hh, ha, hn, ho2, hd2, ha2, hh2, hf2]

/-- A confirmation attempt for a paid session whose seat is already booked
leaves the seat ledger unchanged. -/
theorem confirmStep_ledger_of_booked (st : ServerState) (s : StripeSession)
    (o d f h a now : String) (hp : paidFor s o d f h a) (hid : s.id ≠ "")
    (hocc : isSeatBooked st.bookedSeatsByRoute o d f h (.str a) = true) :
    (confirmStep st s now).bookedSeatsByRoute = st.bookedSeatsByRoute := by
  have hpc := paidFor_metaComplete s o d f h a hp
  obtain ⟨hpaid, ho, hd, hf, hh, ha, _⟩ := hp
  unfold confirmStep
  rw [checkoutSessionHandler_paid st s.id s now hid hpaid hpc]
  simp only [ho, hd, hf, hh, ha, hocc, if_true]

/-- After a confirmation attempt for a paid session, the session's seat is
booked (it was just claimed, or it already was). -/
theorem confirmStep_booked (st : ServerState) (s : StripeSession)
    (o d f h a now : String) (hp : paidFor s o d f h a) (hid : s.id ≠ "") :
    isSeatBooked (confirmStep st s now).bookedSeatsByRoute o d f h (.str a) = true := by
  have hpc := paidFor_metaComplete s o d f h a hp
  obtain ⟨hpaid, ho, hd, hf, hh, ha, _⟩ := hp
  unfold confirmStep
  rw [checkoutSessionHandler_paid st s.id s now hid hpaid hpc]
  simp only [ho, hd, hf, hh, ha]
  by_cases hocc : isSeatBooked st.bookedSeatsByRoute o d f h (.str a) = true
  · simp [hocc]
  · simp only [Bool.not_eq_true] at hocc
    simp only [hocc, Bool.false_eq_true, if_false]
    exact isSeatBooked_bookSeat _ o d f h (.str a) (.str a) rfl

/-- A confirmation attempt for a paid session whose seat is still free
mutates the seat ledger. -/
theorem confirmStep_mutates (st : ServerState) (s : StripeSession)
    (o d f h a now : String) (hp : paidFor s o d f h a) (hid : s.id ≠ "")
    (hfree : isSeatBooked st.bookedSeatsByRoute o d f h (.str a) = false) :
    (confirmStep st s now).bookedSeatsByRoute ≠ st.bookedSeatsByRoute := by
  intro heq
  have hb := confirmStep_booked st s o d f h a now hp hid
  rw [heq, hfree] at hb
  exact Bool.false_ne_true hb

/-- Once the seat is booked, a run of further paid confirmation attempts for
the same seat performs no ledger mutation at all. -/
theorem ledgerMutations_zero_of_booked (ss : List StripeSession)
    (st : ServerState) (o d f h a now : String)
    (hall : ∀ s ∈ ss, paidFor s o d f h a ∧ s.id ≠ "")
    (hocc : isSeatBooked st.bookedSeatsByRoute o d f h (.str a) = true) :
    ledgerMutations st ss now = 0 := by
  induction ss generalizing st with
  | nil => rfl
  | cons s rest ih =>
    obtain ⟨hp, hid⟩ := hall s (List.mem_cons_self s rest)
    have hkeep := confirmStep_ledger_of_booked st s o d f h a now hp hid hocc
    have hocc2 : isSeatBooked (confirmStep st s now).bookedSeatsByRoute o d f h
        (.str a) = true := by rw [hkeep]; exact hocc
    simp only [ledgerMutations, hkeep, if_true]
    simpa using ih (confirmStep st s now)
      (fun s2 hs2 => hall s2 (List.mem_cons_of_mem s hs2)) hocc2

/-- Every confirmation attempt of a run of paid sessions observes a paid
response (regardless of the seat ledger's contents). -/
theorem confirmResponses_all_paid (ss : List StripeSession) (st : ServerState)
    (o d f h a now : String) (hall : ∀ s ∈ ss, paidFor s o d f h a ∧ s.id ≠ "") :
    ∀ r ∈ confirmResponses st ss now, isPaidResponse r = true := by
  induction ss generalizing st with
  | nil => intro r hr; simp [confirmResponses] at hr
  | cons s rest ih =>
    intro r hr
    obtain ⟨hp, hid⟩ := hall s (List.mem_cons_self s rest)
    simp only [confirmResponses, List.mem_cons] at hr
    rcases hr with hr | hr
    · rw [hr, checkoutSessionHandler_paid st s.id s now hid hp.1
        (paidFor_metaComplete s o d f h a hp)]
      rfl
    · exact ih (confirmStep st s now)
        (fun s2 hs2 => hall s2 (List.mem_cons_of_mem s hs2)) r hr

/-- After a paid confirmation, the session's seat is booked in the resulting
ledger (it was just claimed, or already was). -/
theorem booked_after_paid (st : ServerState) (sid : String) (s : StripeSession)
    (now : String) (hsid : sid ≠ "") (hpaid : s.paymentStatus = "paid")
    (hmeta : metaComplete s.metadata = true) :
    isSeatBooked (checkoutSessionHandler st sid (some s) now).2.bookedSeatsByRoute
      s.metadata.origen s.metadata.destino s.metadata.fecha s.metadata.horario
      (.str s.metadata.asiento) = true := by
  rw [checkoutSessionHandler_paid st sid s now hsid hpaid hmeta]
  by_cases hocc : isSeatBooked st.bookedSeatsByRoute s.metadata.origen
      s.metadata.destino s.metadata.fecha s.metadata.horario
      (.str s.metadata.asiento) = true
  · simp [hocc]
  · simp only [Bool.not_eq_true] at hocc
    simp only [hocc, Bool.false_eq_true, if_false]
    exact isSeatBooked_bookSeat _ _ _ _ _ (.str s.metadata.asiento)
      (.str s.metadata.asiento) rfl

/-! ### Claim theorems -/

/-- C1 counterexample: seat 12 is already occupied in the ledger, the
session is confirmed paid for that same seat, yet the confirmation handler
answers with a paid response (there is no failed/conflict transition) and a
Ticket IS stored for the session — contradicting the claim that the booking
ends failed with a conflict reason and that no Ticket is created. -/
theorem paid_conflict_counterexample :
    (checkoutSessionHandler seatTwelveTakenState "cs_1" (some seatTwelveSession) "t0").1
      = ConfirmResponse.paid "cs_1" 2500 "mxn"
          ⟨"Ana", "CDMX", "GDL", "12", "10:00", "2024-01-15"⟩
    ∧ alGet (checkoutSessionHandler seatTwelveTakenState "cs_1"
        (some seatTwelveSession) "t0").2.ticketDatabase "cs_1" ≠ none :=
  ⟨by decide, by decide⟩

/-- C1 (amended): when the external payment is confirmed paid but the
requested seat is already occupied in the ledger, the handler does NOT fail
the booking: it skips the seat claim (the ledger is unchanged), still stores
a Ticket record under the sessionId, and returns a paid response. -/
theorem paid_conflict_keeps_ticket (st : ServerState) (sid : String)
    (s : StripeSession) (now : String) (hsid : sid ≠ "")
    (hpaid : s.paymentStatus = "paid") (hmeta : metaComplete s.metadata = true)
    (hocc : isSeatBooked st.bookedSeatsByRoute s.metadata.origen s.metadata.destino
      s.metadata.fecha s.metadata.horario (.str s.metadata.asiento) = true) :
    (checkoutSessionHandler st sid (some s) now).1
      = .paid s.id s.amountTotal s.currency
          ⟨s.metadata.nombre, s.metadata.origen, s.metadata.destino,
           s.metadata.asiento, s.metadata.horario, s.metadata.fecha⟩
    ∧ (checkoutSessionHandler st sid (some s) now).2.bookedSeatsByRoute
      = st.bookedSeatsByRoute
    ∧ alGet (checkoutSessionHandler st sid (some s) now).2.ticketDatabase s.id
      = some (confirmTicket s now) := by
  rw [checkoutSessionHandler_paid st sid s now hsid hpaid hmeta]
  refine ⟨rfl, ?_, ?_⟩
  · simp [hocc]
  · simp [alGet_alSet_self]

/-- C1 witness: the amended behavior at the concrete occupied-seat
scenario. -/
theorem paid_conflict_keeps_ticket_witness :
    (("cs_1" : String) ≠ ""
      ∧ seatTwelveSession.paymentStatus = "paid"
      ∧ metaComplete seatTwelveSession.metadata = true
      ∧ isSeatBooked seatTwelveTakenState.bookedSeatsByRoute
          seatTwelveSession.metadata.origen seatTwelveSession.metadata.destino
          seatTwelveSession.metadata.fecha seatTwelveSession.metadata.horario
          (.str seatTwelveSession.metadata.asiento) = true)
    ∧ ((checkoutSessionHandler seatTwelveTakenState "cs_1" (some seatTwelveSession) "t0").1
        = .paid seatTwelveSession.id seatTwelveSession.amountTotal
            seatTwelveSession.currency
            ⟨seatTwelveSession.metadata.nombre, seatTwelveSession.metadata.origen,
             seatTwelveSession.metadata.destino, seatTwelveSession.metadata.asiento,
             seatTwelveSession.metadata.horario, seatTwelveSession.metadata.fecha⟩
      ∧ (checkoutSessionHandler seatTwelveTakenState "cs_1"
          (some seatTwelveSession) "t0").2.bookedSeatsByRoute
        = seatTwelveTakenState.bookedSeatsByRoute
      ∧ alGet (checkoutSessionHandler seatTwelveTakenState "cs_1"
          (some seatTwelveSession) "t0").2.ticketDatabase seatTwelveSession.id
        = some (confirmTicket seatTwelveSession "t0")) :=
  ⟨⟨by decide, by decide, by decide, by decide⟩,
   paid_conflict_keeps_ticket seatTwelveTakenState "cs_1" seatTwelveSession "t0"
     (by decide) (by decide) (by decide) (by decide)⟩

/-- C2: confirm is idempotent for a paid session — a second confirmation for
the same sessionId returns the same response (the same Ticket data), leaves
the occupied-seat set unchanged (no second seat claim), and the ticket
database holds exactly one record under that sessionId. -/
theorem idempotent_confirm (st : ServerState) (sid now1 now2 : String)
    (s : StripeSession) (hsid : sid ≠ "") (hpaid : s.paymentStatus = "paid")
    (hmeta : metaComplete s.metadata = true)
    (hcount : countKey st.ticketDatabase s.id ≤ 1) :
    (checkoutSessionHandler (checkoutSessionHandler st sid (some s) now1).2
        sid (some s) now2).1
      = (checkoutSessionHandler st sid (some s) now1).1
    ∧ (checkoutSessionHandler (checkoutSessionHandler st sid (some s) now1).2
        sid (some s) now2).2.bookedSeatsByRoute
      = (checkoutSessionHandler st sid (some s) now1).2.bookedSeatsByRoute
    ∧ countKey (checkoutSessionHandler (checkoutSessionHandler st sid (some s) now1).2
        sid (some s) now2).2.ticketDatabase s.id = 1 := by
  have h1 := checkoutSessionHandler_paid st sid s now1 hsid hpaid hmeta
  have hb := booked_after_paid st sid s now1 hsid hpaid hmeta
  have h2 := checkoutSessionHandler_paid
    ((checkoutSessionHandler st sid (some s) now1).2) sid s now2 hsid hpaid hmeta
  refine ⟨?_, ?_, ?_⟩
  · rw [h2, h1]
  · rw [h2]
    simp [hb]
  · rw [h2]
    have ht : (checkoutSessionHandler st sid (some s) now1).2.ticketDatabase
        = alSet st.ticketDatabase s.id (confirmTicket s now1) := by rw [h1]
    simp only [ht, countKey_alSet]
    omega

/-- C2 witness: double confirmation of the concrete paid session on a fresh
server state. -/
theorem idempotent_confirm_witness :
    (("cs_1" : String) ≠ ""
      ∧ seatTwelveSession.paymentStatus = "paid"
      ∧ metaComplete seatTwelveSession.metadata = true
      ∧ countKey (ServerState.mk [] [] []).ticketDatabase seatTwelveSession.id ≤ 1)
    ∧ ((checkoutSessionHandler (checkoutSessionHandler ⟨[], [], []⟩ "cs_1"
          (some seatTwelveSession) "t1").2 "cs_1" (some seatTwelveSession) "t2").1
        = (checkoutSessionHandler ⟨[], [], []⟩ "cs_1" (some seatTwelveSession) "t1").1
      ∧ (checkoutSessionHandler (checkoutSessionHandler ⟨[], [], []⟩ "cs_1"
          (some seatTwelveSession) "t1").2 "cs_1" (some seatTwelveSession) "t2").2.bookedSeatsByRoute
        = (checkoutSessionHandler ⟨[], [], []⟩ "cs_1"
            (some seatTwelveSession) "t1").2.bookedSeatsByRoute
      ∧ countKey (checkoutSessionHandler (checkoutSessionHandler ⟨[], [], []⟩ "cs_1"
          (some seatTwelveSession) "t1").2 "cs_1"
          (some seatTwelveSession) "t2").2.ticketDatabase seatTwelveSession.id = 1) :=
  ⟨⟨by decide, by decide, by decide, by decide⟩,
   idempotent_confirm ⟨[], [], []⟩ "cs_1" "t1" "t2" seatTwelveSession
     (by decide) (by decide) (by decide) (by decide)⟩

/-- C3 counterexample: two confirmation attempts for the same
(trip-instance key, seat) pair — seat 12, distinct paid sessions — run
against a fresh ledger.  Both observe a paid success response (and the
second even stores its own Ticket); the loser never observes an
`alreadyOccupied` outcome, contradicting the claim that exactly one of N
attempts observes success and the other N-1 observe `alreadyOccupied`. -/
theorem claim_uniqueness_counterexample :
    isPaidResponse (checkoutSessionHandler ⟨[], [], []⟩ "cs_1"
      (some seatTwelveSession) "t0").1 = true
    ∧ isPaidResponse (checkoutSessionHandler
        (checkoutSessionHandler ⟨[], [], []⟩ "cs_1" (some seatTwelveSession) "t0").2
        "cs_2" (some rivalSession) "t0").1 = true
    ∧ alGet (checkoutSessionHandler
        (checkoutSessionHandler ⟨[], [], []⟩ "cs_1" (some seatTwelveSession) "t0").2
        "cs_2" (some rivalSession) "t0").2.ticketDatabase "cs_2" ≠ none :=
  ⟨by decide, by decide, by decide⟩

/-- C3 (amended): for a fixed (TripInstanceKey, seat) pair and any non-empty
sequence of confirmation attempts by paid sessions for that pair starting
from a ledger where the seat is free, exactly one attempt mutates the seat
ledger (the first; all later ones find the seat occupied and skip the
claim), but no attempt observes an `alreadyOccupied` outcome: every attempt
receives a paid response.  (The code serializes the check-then-act pair
inside one synchronous event-loop step, so the attempts are modelled as a
sequence; no `alreadyOccupied` outcome exists in the code at all.) -/
theorem claim_unique_ledger_mutation (st : ServerState) (ss : List StripeSession)
    (o d f h a now : String)
    (hall : ∀ s ∈ ss, paidFor s o d f h a ∧ s.id ≠ "")
    (hfree : isSeatBooked st.bookedSeatsByRoute o d f h (.str a) = false)
    (hne : ss ≠ []) :
    ledgerMutations st ss now = 1
    ∧ ∀ r ∈ confirmResponses st ss now, isPaidResponse r = true := by
  refine ⟨?_, confirmResponses_all_paid ss st o d f h a now hall⟩
  match ss, hne with
  | s :: rest, _ =>
    obtain ⟨hp, hid⟩ := hall s (List.mem_cons_self s rest)
    have hmut := confirmStep_mutates st s o d f h a now hp hid hfree
    have hbooked := confirmStep_booked st s o d f h a now hp hid
    have hzero := ledgerMutations_zero_of_booked rest (confirmStep st s now)
      o d f h a now (fun s2 hs2 => hall s2 (List.mem_cons_of_mem s hs2)) hbooked
    simp only [ledgerMutations, hmut, if_false, hzero]

/-- C3 witness: the two-attempt scenario for seat 12, instantiating the
amended uniqueness property. -/
theorem claim_unique_ledger_mutation_witness :
    ((∀ s ∈ [seatTwelveSession, rivalSession],
        paidFor s "CDMX" "GDL" "2024-01-15" "10:00" "12" ∧ s.id ≠ "")
      ∧ isSeatBooked (ServerState.mk [] [] []).bookedSeatsByRoute
          "CDMX" "GDL" "2024-01-15" "10:00" (.str "12") = false
      ∧ ([seatTwelveSession, rivalSession] : List StripeSession) ≠ [])
    ∧ (ledgerMutations ⟨[], [], []⟩ [seatTwelveSession, rivalSession] "t0" = 1
      ∧ ∀ r ∈ confirmResponses ⟨[], [], []⟩ [seatTwelveSession, rivalSession] "t0",
          isPaidResponse r = true) :=
  ⟨⟨by decide, by decide, by decide⟩,
   claim_unique_ledger_mutation ⟨[], [], []⟩ [seatTwelveSession, rivalSession]
     "CDMX" "GDL" "2024-01-15" "10:00" "12" "t0"
     (by decide) (by decide) (by decide)⟩

/-- C4: the client-supplied `precio` field has no influence on the checkout
— two requests differing only in `precio` produce identical outcomes
(identical session configuration, hence identical amount sent to the
payment collaborator) — and when a schedule of the route matches the
requested time, the charged unit amount is that schedule's authoritative
price (in rounded cents), never the client-asserted one. -/
theorem no_price_tampering (st : ServerState) (req : CheckoutRequest)
    (p1 p2 : ℚ) (rd : RouteData) (sched : Schedule)
    (hreq : requiredPresent req = true)
    (hfree : isSeatBooked st.bookedSeatsByRoute req.origen req.destino req.fecha
      req.horario req.asiento = false)
    (hroute : alGet st.availableRoutes (req.origen ++ "-" ++ req.destino) = some rd)
    (hsched : rd.schedules.find? (fun s => s.time == req.horario) = some sched) :
    createCheckoutSession st { req with precio := p1 }
      = createCheckoutSession st { req with precio := p2 }
    ∧ checkoutAmount (createCheckoutSession st req).1
      = some (jsRound (sched.price * 100)) := by
  refine ⟨rfl, ?_⟩
  have hamt := (createCheckoutSession_amount st req rd hreq hfree hroute).2
  rw [hsched] at hamt
  exact hamt

/-- C4 witness: at the 10:00 departure (authoritative price 30), two
client-asserted prices 1 and 9999 produce the same checkout and the amount
is the rounded authoritative price. -/
theorem no_price_tampering_witness :
    (requiredPresent listedScheduleRequest = true
      ∧ isSeatBooked freshRoutesState.bookedSeatsByRoute listedScheduleRequest.origen
          listedScheduleRequest.destino listedScheduleRequest.fecha
          listedScheduleRequest.horario listedScheduleRequest.asiento = false
      ∧ alGet freshRoutesState.availableRoutes
          (listedScheduleRequest.origen ++ "-" ++ listedScheduleRequest.destino)
        = some cdmxGdlRoute
      ∧ cdmxGdlRoute.schedules.find?
          (fun s => s.time == listedScheduleRequest.horario)
        = some ⟨2, "10:00", "17:30", "Primera Clase", 30⟩)
    ∧ (createCheckoutSession freshRoutesState { listedScheduleRequest with precio := 1 }
        = createCheckoutSession freshRoutesState { listedScheduleRequest with precio := 9999 }
      ∧ checkoutAmount (createCheckoutSession freshRoutesState listedScheduleRequest).1
        = some (jsRound ((30 : ℚ) * 100))) :=
  ⟨⟨by decide, by decide, by decide, by decide⟩,
   no_price_tampering freshRoutesState listedScheduleRequest 1 9999
     cdmxGdlRoute
     ⟨2, "10:00", "17:30", "Primera Clase", 30⟩
     (by decide) (by decide) (by decide) (by decide)⟩

/-- C5 counterexample: the Ciudad de México → Guadalajara route exists, the
requested 23:59 departure matches no schedule, yet the sale is NOT rejected:
the handler delegates to the payment collaborator (status 200, the claimed
NotFound rejection does not occur) charging the route's basePrice of 25.00
MXN, i.e. 2500 cents — another price, not a rejection. -/
theorem fare_notfound_counterexample :
    checkoutStatus (createCheckoutSession freshRoutesState noScheduleRequest).1 = 200
    ∧ checkoutAmount (createCheckoutSession freshRoutesState noScheduleRequest).1
      = some 2500 := by
  refine ⟨by decide, ?_⟩
  show some (jsRound ((25 : ℚ) * 100)) = some 2500
  norm_num [jsRound]

/-- C5 (amended): when the route exists but no schedule of it has the
requested departure time, the sale proceeds anyway — the handler delegates
to the payment collaborator charging the route's `basePrice` — instead of
rejecting as it does for a nonexistent route. -/
theorem fare_fallback_basePrice (st : ServerState) (req : CheckoutRequest)
    (rd : RouteData) (hreq : requiredPresent req = true)
    (hfree : isSeatBooked st.bookedSeatsByRoute req.origen req.destino req.fecha
      req.horario req.asiento = false)
    (hroute : alGet st.availableRoutes (req.origen ++ "-" ++ req.destino) = some rd)
    (hnosched : rd.schedules.find? (fun s => s.time == req.horario) = none) :
    checkoutStatus (createCheckoutSession st req).1 = 200
    ∧ checkoutAmount (createCheckoutSession st req).1
      = some (jsRound (rd.basePrice * 100)) := by
  obtain ⟨h200, hamt⟩ := createCheckoutSession_amount st req rd hreq hfree hroute
  rw [hnosched] at hamt
  exact ⟨h200, hamt⟩

/-- C5 witness: the fallback at the concrete 23:59 request. -/
theorem fare_fallback_basePrice_witness :
    (requiredPresent noScheduleRequest = true
      ∧ isSeatBooked freshRoutesState.bookedSeatsByRoute noScheduleRequest.origen
          noScheduleRequest.destino noScheduleRequest.fecha noScheduleRequest.horario
          noScheduleRequest.asiento = false
      ∧ alGet freshRoutesState.availableRoutes
          (noScheduleRequest.origen ++ "-" ++ noScheduleRequest.destino)
        = some cdmxGdlRoute
      ∧ cdmxGdlRoute.schedules.find?
          (fun s => s.time == noScheduleRequest.horario) = none)
    ∧ (checkoutStatus (createCheckoutSession freshRoutesState noScheduleRequest).1 = 200
      ∧ checkoutAmount (createCheckoutSession freshRoutesState noScheduleRequest).1
        = some (jsRound ((25 : ℚ) * 100))) :=
  ⟨⟨by decide, by decide, by decide, by decide⟩,
   fare_fallback_basePrice freshRoutesState noScheduleRequest
     cdmxGdlRoute
     (by decide) (by decide) (by decide) (by decide)⟩

/-- C6: for every create-checkout-session request, whether it succeeds or
fails, the server state — in particular the occupied-seat set of every
trip-instance key — is unchanged after the call; `startCheckout` has no
seat-holding side effect (seats are only added by the confirmation path,
the only code calling `bookSeat`). -/
theorem startCheckout_no_seat_side_effect (st : ServerState) (req : CheckoutRequest) :
    (createCheckoutSession st req).2 = st
    ∧ ∀ key, alGet (createCheckoutSession st req).2.bookedSeatsByRoute key
        = alGet st.bookedSeatsByRoute key := by
  have h := createCheckoutSession_state_eq st req
  exact ⟨h, fun key => by rw [h]⟩

/-- C7: the trip-key encoder `getRouteKey` (a pure function, hence
deterministic) identifies origin/destination inputs that differ only by
letter case and leading/trailing whitespace, while two distinct dates for
the same route and time yield distinct keys, whose occupancy is therefore
never shared: booking a seat under one date does not affect any occupancy
query under the other date. -/
theorem trip_key_normalization (o o' d d' f f' h : String)
    (ho : caseWsVariant o o') (hd : caseWsVariant d d') (hf : f ≠ f') :
    getRouteKey o d f h = getRouteKey o' d' f h
    ∧ getRouteKey o d f h ≠ getRouteKey o d f' h
    ∧ ∀ (m : SeatMap) (v w : JsVal),
        isSeatBooked (bookSeat m o d f h v) o d f' h w = isSeatBooked m o d f' h w := by
  refine ⟨?_, getRouteKey_fecha_injective o d f f' h hf, ?_⟩
  · unfold caseWsVariant at ho hd
    unfold getRouteKey
    rw [ho, hd]
  · intro m v w
    unfold isSeatBooked bookSeat
    rw [alGet_mapAddSeat_ne _ _ _ _ (getRouteKey_fecha_injective o d f f' h hf)]

/-- C7 witness: the spec's concrete case/whitespace variants compare equal
by key, and the same route and time on two distinct dates give distinct
keys with independent occupancy. -/
theorem trip_key_normalization_witness :
    (caseWsVariant "Ciudad de México" " ciudad de méxico "
      ∧ caseWsVariant "Guadalajara" " GUADALAJARA"
      ∧ ("2024-01-15" : String) ≠ "2024-01-16")
    ∧ (getRouteKey "Ciudad de México" "Guadalajara" "2024-01-15" "10:00"
        = getRouteKey " ciudad de méxico " " GUADALAJARA" "2024-01-15" "10:00"
      ∧ getRouteKey "Ciudad de México" "Guadalajara" "2024-01-15" "10:00"
        ≠ getRouteKey "Ciudad de México" "Guadalajara" "2024-01-16" "10:00"
      ∧ isSeatBooked
          (bookSeat [] "Ciudad de México" "Guadalajara" "2024-01-15" "10:00" (.num 3))
          "Ciudad de México" "Guadalajara" "2024-01-16" "10:00" (.str "3")
        = isSeatBooked [] "Ciudad de México" "Guadalajara" "2024-01-16" "10:00" (.str "3")) := by
  have h := trip_key_normalization "Ciudad de México" " ciudad de méxico "
    "Guadalajara" " GUADALAJARA" "2024-01-15" "2024-01-16" "10:00"
    (by decide) (by decide) (by decide)
  exact ⟨⟨by decide, by decide, by decide⟩,
    h.1, h.2.1, h.2.2 [] (.num 3) (.str "3")⟩

/-- C8: a create-checkout-session request (with its required fields present)
for a seat already occupied in the ledger is rejected with the 409
unavailable-seat response — in particular no payment session is opened —
and the server state is unchanged. -/
theorem early_occupancy_guard (st : ServerState) (req : CheckoutRequest)
    (hreq : requiredPresent req = true)
    (hocc : isSeatBooked st.bookedSeatsByRoute req.origen req.destino req.fecha
      req.horario req.asiento = true) :
    (createCheckoutSession st req).1
      = .error 409 "El asiento seleccionado no está disponible"
    ∧ (createCheckoutSession st req).2 = st := by
  unfold createCheckoutSession
  simp [hreq, hocc]

/-- C8 witness: the guard at the concrete occupied-seat scenario. -/
theorem early_occupancy_guard_witness :
    (requiredPresent seatTwelveRequest = true
      ∧ isSeatBooked seatTwelveTakenState.bookedSeatsByRoute seatTwelveRequest.origen
          seatTwelveRequest.destino seatTwelveRequest.fecha seatTwelveRequest.horario
          seatTwelveRequest.asiento = true)
    ∧ ((createCheckoutSession seatTwelveTakenState seatTwelveRequest).1
        = .error 409 "El asiento seleccionado no está disponible"
      ∧ (createCheckoutSession seatTwelveTakenState seatTwelveRequest).2
        = seatTwelveTakenState) :=
  ⟨⟨by decide, by decide⟩,
   early_occupancy_guard seatTwelveTakenState seatTwelveRequest (by decide) (by decide)⟩

/-- C10: `isSeatBooked` and `bookSeat` coerce the seat argument with
`String(...)`, so a numeric seat and its decimal string form are
interchangeable for booking and querying; the ledger stores the string
forms (its sets have type `List String` by construction). -/
theorem seat_string_coercion (m : SeatMap) (o d f h : String) (v w : JsVal)
    (hvw : jsString v = jsString w) :
    isSeatBooked (bookSeat m o d f h v) o d f h w = true
    ∧ isSeatBooked (bookSeat m o d f h w) o d f h v = true
    ∧ isSeatBooked m o d f h v = isSeatBooked m o d f h w := by
  refine ⟨isSeatBooked_bookSeat m o d f h v w hvw,
    isSeatBooked_bookSeat m o d f h w v hvw.symm, ?_⟩
  unfold isSeatBooked
  rw [hvw]

/-- C10 witness: booking the number 12 makes the string "12" booked and
conversely. -/
theorem seat_string_coercion_witness :
    jsString (.num 12) = jsString (.str "12")
    ∧ (isSeatBooked (bookSeat [] "CDMX" "GDL" "2024-01-15" "10:00" (.num 12))
        "CDMX" "GDL" "2024-01-15" "10:00" (.str "12") = true
      ∧ isSeatBooked (bookSeat [] "CDMX" "GDL" "2024-01-15" "10:00" (.str "12"))
        "CDMX" "GDL" "2024-01-15" "10:00" (.num 12) = true
      ∧ isSeatBooked [] "CDMX" "GDL" "2024-01-15" "10:00" (.num 12)
        = isSeatBooked [] "CDMX" "GDL" "2024-01-15" "10:00" (.str "12")) :=
  ⟨by decide,
   seat_string_coercion [] "CDMX" "GDL" "2024-01-15" "10:00" (.num 12) (.str "12") (by decide)⟩

/-- C9: releasing a seat makes it claimable again in the BookingModel — a
created (pendiente) booking makes its (routeId, asiento, fecha) seat
unavailable; cancelling that booking succeeds and makes the seat available
again, so a subsequent claim is admitted by the `isSeatAvailable` guard; and
cancelling again (releasing the already-free seat) is a no-op returning
null, not an error: the store is unchanged. -/
theorem release_reclaim (s0 : BookingStore) (data : BookingData)
    (ref motivo now1 now2 now3 : String)
    (hfresh : alGet s0.bookings ref = none)
    (hfree : isSeatAvailable s0 data.routeId data.asiento data.fecha = true)
    (hestado : data.estado = "") :
    isSeatAvailable (createBooking s0 data ref now1).2 data.routeId data.asiento
      data.fecha = false
    ∧ (cancelBooking (createBooking s0 data ref now1).2 ref motivo now2).1.isSome = true
    ∧ isSeatAvailable (cancelBooking (createBooking s0 data ref now1).2 ref
        motivo now2).2 data.routeId data.asiento data.fecha = true
    ∧ cancelBooking (cancelBooking (createBooking s0 data ref now1).2 ref
          motivo now2).2 ref motivo now3
      = (none, (cancelBooking (createBooking s0 data ref now1).2 ref motivo now2).2) := by
  set b1 : Booking := (createBooking s0 data ref now1).1 with hb1def
  have hs1 : (createBooking s0 data ref now1).2
      = ⟨alSet s0.bookings ref b1, s0.nextId + 1⟩ := rfl
  have hb1estado : b1.estado = "pendiente" := by
    simp [hb1def, createBooking, hestado]
  have hb1route : b1.routeId = data.routeId := by simp [hb1def, createBooking]
  have hb1asiento : b1.asiento = data.asiento := by simp [hb1def, createBooking]
  have hb1fecha : b1.fecha = data.fecha := by simp [hb1def, createBooking]
  have hbk1 : (createBooking s0 data ref now1).2.bookings = s0.bookings ++ [(ref, b1)] := by
    rw [hs1]
    exact alSet_of_none s0.bookings ref b1 hfresh
  have hget1 : alGet (createBooking s0 data ref now1).2.bookings ref = some b1 := by
    rw [hs1]
    exact alGet_alSet_self s0.bookings ref b1
  set nb : Booking := { b1 with
    estado := "cancelada"
    motivoCancelacion := some motivo
    fechaCancelacion := some now2
    fechaActualizacion := now2
    version := b1.version + 1 } with hnbdef
  have hcanceleq : cancelBooking (createBooking s0 data ref now1).2 ref motivo now2
      = (some nb,
         ⟨alSet (createBooking s0 data ref now1).2.bookings ref nb,
          (createBooking s0 data ref now1).2.nextId⟩) := by
    unfold cancelBooking updateBooking
    simp only [hget1]
    simp [hb1estado, hnbdef]
  have hfree2 : s0.bookings.all (fun p =>
      !(p.2.routeId == data.routeId && p.2.asiento == data.asiento
        && p.2.fecha == data.fecha && p.2.estado != "cancelada")) = true := hfree
  refine ⟨?_, ?_, ?_, ?_⟩
  · unfold isSeatAvailable
    rw [hbk1]
    simp [List.all_append, hb1route, hb1asiento, hb1fecha, hb1estado]
  · rw [hcanceleq]
    rfl
  · rw [hcanceleq]
    unfold isSeatAvailable
    show (alSet (createBooking s0 data ref now1).2.bookings ref nb).all _ = true
    rw [hbk1, alSet_append_of_none s0.bookings ref b1 nb hfresh,
      List.all_append, hfree2]
    simp [hnbdef]
  · rw [hcanceleq]
    unfold cancelBooking
    rw [show alGet (alSet (createBooking s0 data ref now1).2.bookings ref nb) ref
        = some nb from alGet_alSet_self _ ref nb]
    simp [hnbdef]

/-- C9 witness: seat 7 of route 1 — claim, release, re-claimable, and the
second release is a null no-op. -/
theorem release_reclaim_witness :
    (alGet (BookingStore.mk [] 1).bookings "TB1" = none
      ∧ isSeatAvailable ⟨[], 1⟩ seatSevenData.routeId seatSevenData.asiento
          seatSevenData.fecha = true
      ∧ seatSevenData.estado = "")
    ∧ (isSeatAvailable (createBooking ⟨[], 1⟩ seatSevenData "TB1" "t1").2
          seatSevenData.routeId seatSevenData.asiento seatSevenData.fecha = false
      ∧ (cancelBooking (createBooking ⟨[], 1⟩ seatSevenData "TB1" "t1").2 "TB1"
          "user request" "t2").1.isSome = true
      ∧ isSeatAvailable (cancelBooking (createBooking ⟨[], 1⟩ seatSevenData "TB1" "t1").2
          "TB1" "user request" "t2").2 seatSevenData.routeId seatSevenData.asiento
          seatSevenData.fecha = true
      ∧ cancelBooking (cancelBooking (createBooking ⟨[], 1⟩ seatSevenData "TB1" "t1").2
            "TB1" "user request" "t2").2 "TB1" "user request" "t3"
        = (none, (cancelBooking (createBooking ⟨[], 1⟩ seatSevenData "TB1" "t1").2
            "TB1" "user request" "t2").2)) :=
  ⟨⟨by decide, by decide, by decide⟩,
   release_reclaim ⟨[], 1⟩ seatSevenData "TB1" "user request" "t1" "t2" "t3"
     (by decide) (by decide) (by decide)⟩

end TransBus
